import Mathlib

/-!
Verification of the pipe transport core of the `pyaudacity` package
(`src/pyaudacity/__init__.py`): the exchange function `do`, the exception
class `PyAudacityException`, and the wrapper `save`.

The embedding models `do` as a pure function of an explicit world
(platform flag, numeric user id, filesystem-existence predicate, and the
finite sequence of lines the peer's pipe yields to `readline`).  Each run
produces the ordered trace of externally visible I/O events together with
its outcome (a returned string, a raised `PyAudacityException`, or
non-termination of the read loop).  The `readline` model: each call yields
the next element of `peerLines`; once the list is exhausted the pipe is at
end-of-file and every further `readline` yields `""`, so a run whose read
loop consumes the whole list without meeting the break condition never
terminates (the break test `"" == "\n"` is false forever).
-/

namespace PyAudacity

/-- The exception class of the package (`class PyAudacityException(Exception)`).
It carries nothing but the message string passed to its constructor. -/
structure PyAudacityException where
  message : String
deriving DecidableEq, Repr

/-- `write_pipe_name` as computed at the top of `do`: the fixed Windows named
pipe when `sys.platform == "win32"`, otherwise the `/tmp` path ending in the
caller's numeric uid (`str(os.getuid())`). -/
def write_pipe_name (win32 : Bool) (uid : Nat) : String :=
  if win32 then "\\\\.\\pipe\\ToSrvPipe"
  else "/tmp/audacity_script_pipe.to." ++ toString uid

/-- `read_pipe_name` as computed at the top of `do`. -/
def read_pipe_name (win32 : Bool) (uid : Nat) : String :=
  if win32 then "\\\\.\\pipe\\FromSrvPipe"
  else "/tmp/audacity_script_pipe.from." ++ toString uid

/-- The per-platform terminator `eol` appended to the command:
`"\r\n\0"` on win32, `"\n"` otherwise. -/
def eol (win32 : Bool) : String :=
  if win32 then "\r\n\x00" else "\n"

/-- The message of the `PyAudacityException` raised when a pipe path is
missing, with the path prepended (note the double space after `exist.`,
exactly as in the source). -/
def missingPipeMsg (pipeName : String) : String :=
  pipeName ++ " does not exist.  Ensure Audacity is running and mod-script-pipe is set to Enabled in the Preferences window."

/-- The failure marker `do` searches for in the accumulated response. -/
def failureMarker : String := "BatchCommand finished: Failed!"

/-- `needle.isPrefixOf hay` at the character-list level, written out so the
development is self-contained. -/
def charsStartWith : List Char → List Char → Bool
  | [], _ => true
  | _ :: _, [] => false
  | a :: as, b :: bs => a == b && charsStartWith as bs

/-- Substring containment on character lists (Python's `needle in hay`). -/
def charsContain (needle : List Char) : List Char → Bool
  | [] => charsStartWith needle []
  | c :: rest => charsStartWith needle (c :: rest) || charsContain needle rest

/-- Python's `needle in hay` for strings: substring containment. -/
def containsSubstring (hay needle : String) : Bool :=
  charsContain needle.data hay.data

/-- One externally visible primitive action performed by `do`, in program
order: the `os.path.exists` checks (with their outcome), the
`time.sleep(0.0001)` calls, opening each pipe, the single
`write_pipe.write(...)` (recording exactly the string written), the
`flush`, each `read_pipe.readline()` (recording the line obtained), and
the two `close` calls. -/
inductive Event where
  | checkExists : String → Bool → Event
  | sleep : Event
  | openWrite : String → Event
  | openRead : String → Event
  | writeData : String → Event
  | flush : Event
  | readLine : String → Event
  | closeWrite : Event
  | closeRead : Event
deriving DecidableEq, Repr

/-- Outcome of a call to `do`: a Python `return`, a raised
`PyAudacityException`, or the read loop spinning forever. -/
inductive DoResult where
  | returned : String → DoResult
  | raised : PyAudacityException → DoResult
  | hangs : DoResult
deriving DecidableEq, Repr

/-- The world a call of `do` runs against: the platform flag
(`sys.platform == "win32"`), `os.getuid()`, the `os.path.exists`
predicate, and the successive results of `read_pipe.readline()` (after
`peerLines` is exhausted every further `readline` yields `""`). -/
structure World where
  win32 : Bool
  uid : Nat
  pathExists : String → Bool
  peerLines : List String

/-- The read loop of `do`:

    response = ""
    line = ""
    while True:
        response += line
        line = read_pipe.readline()
        if line == "\n" and len(response) > 0:
            break

unrolled so that each step handles one `readline` result: read `l`; if
`l == "\n"` and the response so far is nonempty, break with the current
response (the breaking line is not appended); otherwise append `l` and
continue.  Returns the list of lines consumed (in order, including the
terminating blank line) and the final response; `none` when the stream is
exhausted first — the concrete loop would then keep reading `""` at
end-of-file forever and never break. -/
def readLinesLoop : List String → String → Option (List String × String)
  | [], _ => none
  | l :: rest, response =>
    if l = "\n" ∧ 0 < response.length then some ([l], response)
    else
      match readLinesLoop rest (response ++ l) with
      | none => none
      | some (ls, r) => some (l :: ls, r)

/-- The core exchange function `do(command)`, as a pure function from the
world and the command to the event trace and the outcome.  Mirrors the
source line by line: compute the two pipe names and `eol`; raise if the
write pipe path does not exist; sleep; raise if the read pipe path does
not exist; sleep; open both pipes; write `command + eol` and flush; run
the read loop; close the write pipe; sleep; close the read pipe; then
raise with the full response if it contains the failure marker, else
return the response.  (The unreachable `sys.exit()` lines after each
`raise` are dead code and are not modelled.)  In the hang case the trace
records the reads of the available lines; the loop then blocks in an
endless sequence of empty reads, never reaching the close statements. -/
def doCall (w : World) (command : String) : List Event × DoResult :=
  let wpn := write_pipe_name w.win32 w.uid
  let rpn := read_pipe_name w.win32 w.uid
  let e := eol w.win32
  if w.pathExists wpn = false then
    ([Event.checkExists wpn false], DoResult.raised ⟨missingPipeMsg wpn⟩)
  else if w.pathExists rpn = false then
    ([Event.checkExists wpn true, Event.sleep, Event.checkExists rpn false],
     DoResult.raised ⟨missingPipeMsg rpn⟩)
  else
    let pre := [Event.checkExists wpn true, Event.sleep,
                Event.checkExists rpn true, Event.sleep,
                Event.openWrite wpn, Event.openRead rpn,
                Event.writeData (command ++ e), Event.flush]
    match readLinesLoop w.peerLines "" with
    | none => (pre ++ w.peerLines.map Event.readLine, DoResult.hangs)
    | some (consumed, response) =>
      (pre ++ consumed.map Event.readLine
           ++ [Event.closeWrite, Event.sleep, Event.closeRead],
       if containsSubstring response failureMarker then
         DoResult.raised ⟨response⟩
       else
         DoResult.returned response)

/-- Two successive calls of `do`.  The module keeps no mutable state that
`do` reads or writes (its `response` and `line` are locals; the pipes are
opened and closed within the call), so the sequential composition of two
calls embeds as the pair of their independent runs, the second against its
own world (its own platform, uid, filesystem and peer responses). -/
def doTwice (w1 w2 : World) (command : String) :
    (List Event × DoResult) × (List Event × DoResult) :=
  (doCall w1 command, doCall w2 command)

/-- Value of an argument received by a Python function at a `bool`-typed
parameter: either an actual `bool`, or some other object, of which only
`str(type(value))` matters to the modelled code. -/
inductive PyArg where
  | bool : Bool → PyArg
  | other : String → PyArg
deriving DecidableEq, Repr

/-- Python's `str` of a `bool`. -/
def pyBoolStr : Bool → String
  | true => "True"
  | false => "False"

/-- Externally visible actions of `save`: the `os.unlink` of the target
path, and the hand-off of the formatted command to `do`. -/
inductive SaveEvent where
  | unlink : String → SaveEvent
  | doCommand : String → SaveEvent
deriving DecidableEq, Repr

/-- Outcome of `save` up to the call of `do`: a raised
`PyAudacityException` from argument validation, or the tail call
`do(command)` with the formatted command. -/
inductive SaveResult where
  | raised : PyAudacityException → SaveResult
  | callsDo : String → SaveResult
deriving DecidableEq, Repr

/-- The wrapper `save(filename, add_to_history, compress, allow_overwrite)`:

    if allow_overwrite and Path(filename).exists():
        os.unlink(Path(filename))
    if not isinstance(add_to_history, bool): raise PyAudacityException(...)
    if not isinstance(compress, bool): raise PyAudacityException(...)
    return do('SaveProject2: Filename="{}" AddToHistory="{}" Compress="{}"'...)

`fs` is the `Path(...).exists()` predicate; `PyArg.other t` stands for a
non-`bool` argument whose `str(type(...))` is `t`. -/
def save (fs : String → Bool) (filename : String)
    (add_to_history compress : PyArg) (allow_overwrite : Bool) :
    List SaveEvent × SaveResult :=
  let pre := if allow_overwrite && fs filename then [SaveEvent.unlink filename] else []
  match add_to_history with
  | PyArg.other t =>
    (pre, SaveResult.raised ⟨"add_to_history argument must be a bool, not" ++ t⟩)
  | PyArg.bool ah =>
    match compress with
    | PyArg.other t =>
      (pre, SaveResult.raised ⟨"compress argument must be a bool, not" ++ t⟩)
    | PyArg.bool cp =>
      let cmd := "SaveProject2: Filename=\"" ++ filename ++ "\" AddToHistory=\""
                   ++ pyBoolStr ah ++ "\" Compress=\"" ++ pyBoolStr cp ++ "\""
      (pre ++ [SaveEvent.doCommand cmd], SaveResult.callsDo cmd)

/-- Concatenation of a list of lines into one string. -/
def concatLines : List String → String
  | [] => ""
  | l :: ls => l ++ concatLines ls

/-- `true` on the events that open the write pipe. -/
def isOpenWrite : Event → Bool
  | Event.openWrite _ => true
  | _ => false

/-- `true` on the events that open the read pipe. -/
def isOpenRead : Event → Bool
  | Event.openRead _ => true
  | _ => false

/-- `true` on write events. -/
def isWriteData : Event → Bool
  | Event.writeData _ => true
  | _ => false

/-- `true` on the event closing the write pipe. -/
def isCloseWrite : Event → Bool
  | Event.closeWrite => true
  | _ => false

/-- `true` on the event closing the read pipe. -/
def isCloseRead : Event → Bool
  | Event.closeRead => true
  | _ => false

/-- `true` on read events. -/
def isReadLine : Event → Bool
  | Event.readLine _ => true
  | _ => false

/-- Number of events in a trace satisfying `p`. -/
def countEv (p : Event → Bool) (t : List Event) : Nat :=
  (t.filter p).length

/-- Concrete world: POSIX platform, both pipes present, peer yields a blank
line, then `line1`, then the terminating blank line. -/
def wBlankFirstLine : World :=
  ⟨false, 1000, fun _ => true, ["\n", "line1\n", "\n"]⟩

/-- Concrete world: both pipes present, peer echoes the failure marker as
its one content line before the terminating blank line. -/
def wMarkerEcho : World :=
  ⟨false, 0, fun _ => true, [failureMarker ++ "\n", "\n"]⟩

/-- Concrete world: both pipes present, peer reports a failed batch
command and then the terminating blank line. -/
def wFailedBatch : World :=
  ⟨false, 0, fun _ => true, ["BatchCommand finished: Failed!\n", "\n"]⟩

/-- Concrete world: no pipe path exists. -/
def wNoPipes : World :=
  ⟨false, 0, fun _ => false, []⟩

/-- Concrete world: only the outbound (write) pipe path exists. -/
def wWriteOnly : World :=
  ⟨false, 0, fun p => p == "/tmp/audacity_script_pipe.to.0", []⟩

/-- Concrete world: both pipes present, peer answers `ok` then the
terminating blank line. -/
def wEchoOk : World :=
  ⟨false, 0, fun _ => true, ["ok\n", "\n"]⟩

/-- Concrete world: both pipes present, peer sends one content line and
then reaches end-of-file without ever sending a blank line. -/
def wNoTerminator : World :=
  ⟨false, 0, fun _ => true, ["a\n"]⟩

end PyAudacity

namespace PyAudacity

/-- A string has positive length exactly when it is not the empty string
(the loop's break test uses `len(response) > 0`). -/
theorem length_pos_iff_ne_empty (s : String) : 0 < s.length ↔ s ≠ "" := by
  rw [show s.length = s.data.length from rfl, List.length_pos]
  constructor
  · intro h he
    subst he
    exact h rfl
  · intro h hd
    exact h (String.ext hd)

/-- When the read loop breaks, the response it returns is nonempty: the
break test requires `len(response) > 0`. -/
theorem readLinesLoop_response_ne_empty :
    ∀ (lines : List String) (acc : String) (consumed : List String) (r : String),
      readLinesLoop lines acc = some (consumed, r) → r ≠ "" := by
  intro lines
  induction lines with
  | nil => intro acc consumed r h; simp [readLinesLoop] at h
  | cons l rest ih =>
    intro acc consumed r h
    rw [readLinesLoop] at h
    split at h
    · rename_i hc
      obtain ⟨h1, h2⟩ := Prod.mk.inj (Option.some.inj h)
      subst h2
      exact (length_pos_iff_ne_empty acc).mp hc.2
    · rename_i hc
      cases heq : readLinesLoop rest (acc ++ l) with
      | none => rw [heq] at h; simp at h
      | some p =>
        rw [heq] at h
        obtain ⟨h1, h2⟩ := Prod.mk.inj (Option.some.inj h)
        subst h2
        exact ih (acc ++ l) p.1 p.2 (heq.trans (by rw [Prod.mk.eta]))

/-- Characterization of read-loop termination: starting from accumulated
text `acc`, the loop breaks out of some iteration exactly when some line
of the stream equals the bare terminator `"\n"` at a point where the
accumulated response (which buffers every earlier line, blank or not) is
nonempty. -/
theorem readLinesLoop_isSome_iff :
    ∀ (lines : List String) (acc : String),
      (readLinesLoop lines acc).isSome ↔
        ∃ i, ∃ h : i < lines.length,
          lines.get ⟨i, h⟩ = "\n" ∧ acc ++ concatLines (lines.take i) ≠ "" := by
  intro lines
  induction lines with
  | nil =>
      intro acc
      simp [readLinesLoop]
  | cons l rest ih =>
      intro acc
      rw [readLinesLoop]
      by_cases hc : l = "\n" ∧ 0 < acc.length
      · rw [if_pos hc]
        simp only [Option.isSome_some, true_iff]
        refine ⟨0, Nat.succ_pos _, hc.1, ?_⟩
        show acc ++ concatLines [] ≠ ""
        rw [concatLines, String.append_empty]
        exact (length_pos_iff_ne_empty acc).mp hc.2
      · rw [if_neg hc]
        have hmatch : (match readLinesLoop rest (acc ++ l) with
            | none => none
            | some (ls, r) => some (l :: ls, r)).isSome
            = (readLinesLoop rest (acc ++ l)).isSome := by
          cases h : readLinesLoop rest (acc ++ l) with
          | none => rfl
          | some p => cases p; rfl
        rw [hmatch, ih (acc ++ l)]
        constructor
        · rintro ⟨j, hj, hj1, hj2⟩
          refine ⟨j + 1, Nat.succ_lt_succ hj, hj1, ?_⟩
          show acc ++ concatLines (l :: rest.take j) ≠ ""
          rw [concatLines, ← String.append_assoc]
          exact hj2
        · rintro ⟨i, hi, h1, h2⟩
          cases i with
          | zero =>
            exfalso
            have hl : l = "\n" := h1
            have hacc : acc = "" := by
              by_contra hne
              exact hc ⟨hl, (length_pos_iff_ne_empty acc).mpr hne⟩
            apply h2
            rw [hacc]
            show ("" : String) ++ concatLines [] = ""
            rw [concatLines, String.append_empty]
          | succ j =>
            refine ⟨j, Nat.lt_of_succ_lt_succ hi, h1, ?_⟩
            have h2' : acc ++ concatLines (l :: rest.take j) ≠ "" := h2
            rw [concatLines, ← String.append_assoc] at h2'
            exact h2'

/-- Full unfolding of a run of `do` whose read loop terminates: the exact
event trace and the final marker test on the accumulated response. -/
theorem doCall_eq_of_loop (w : World) (cmd : String) (consumed : List String) (resp : String)
    (hw : w.pathExists (write_pipe_name w.win32 w.uid) = true)
    (hr : w.pathExists (read_pipe_name w.win32 w.uid) = true)
    (hloop : readLinesLoop w.peerLines "" = some (consumed, resp)) :
    doCall w cmd =
      ([Event.checkExists (write_pipe_name w.win32 w.uid) true, Event.sleep,
        Event.checkExists (read_pipe_name w.win32 w.uid) true, Event.sleep,
        Event.openWrite (write_pipe_name w.win32 w.uid),
        Event.openRead (read_pipe_name w.win32 w.uid),
        Event.writeData (cmd ++ eol w.win32), Event.flush]
        ++ consumed.map Event.readLine
        ++ [Event.closeWrite, Event.sleep, Event.closeRead],
       if containsSubstring resp failureMarker then DoResult.raised ⟨resp⟩
       else DoResult.returned resp) := by
  simp [doCall, hw, hr, hloop]

/-- A run of `do` whose peer stream is exhausted without the loop ever
breaking never terminates. -/
theorem doCall_hangs_of_loop_none (w : World) (cmd : String)
    (hw : w.pathExists (write_pipe_name w.win32 w.uid) = true)
    (hr : w.pathExists (read_pipe_name w.win32 w.uid) = true)
    (hloop : readLinesLoop w.peerLines "" = none) :
    (doCall w cmd).2 = DoResult.hangs := by
  simp [doCall, hw, hr, hloop]

/-- No event produced by mapping `readLine` over lines satisfies a
predicate that is false on `readLine` events. -/
theorem filter_map_readLine (p : Event → Bool) (hp : ∀ s, p (Event.readLine s) = false)
    (ls : List String) : (ls.map Event.readLine).filter p = [] := by
  induction ls with
  | nil => rfl
  | cons l rest ih => simp [List.filter_cons, hp, ih]

/-- In the full trace of a terminating run there is exactly one open of
each pipe, one write, and one close of each pipe. -/
theorem counts_of_full_trace (wpn rpn data : String) (consumed : List String) :
    countEv isOpenWrite
      ([Event.checkExists wpn true, Event.sleep, Event.checkExists rpn true, Event.sleep,
        Event.openWrite wpn, Event.openRead rpn, Event.writeData data, Event.flush]
        ++ consumed.map Event.readLine ++ [Event.closeWrite, Event.sleep, Event.closeRead]) = 1 ∧
    countEv isOpenRead
      ([Event.checkExists wpn true, Event.sleep, Event.checkExists rpn true, Event.sleep,
        Event.openWrite wpn, Event.openRead rpn, Event.writeData data, Event.flush]
        ++ consumed.map Event.readLine ++ [Event.closeWrite, Event.sleep, Event.closeRead]) = 1 ∧
    countEv isWriteData
      ([Event.checkExists wpn true, Event.sleep, Event.checkExists rpn true, Event.sleep,
        Event.openWrite wpn, Event.openRead rpn, Event.writeData data, Event.flush]
        ++ consumed.map Event.readLine ++ [Event.closeWrite, Event.sleep, Event.closeRead]) = 1 ∧
    countEv isCloseWrite
      ([Event.checkExists wpn true, Event.sleep, Event.checkExists rpn true, Event.sleep,
        Event.openWrite wpn, Event.openRead rpn, Event.writeData data, Event.flush]
        ++ consumed.map Event.readLine ++ [Event.closeWrite, Event.sleep, Event.closeRead]) = 1 ∧
    countEv isCloseRead
      ([Event.checkExists wpn true, Event.sleep, Event.checkExists rpn true, Event.sleep,
        Event.openWrite wpn, Event.openRead rpn, Event.writeData data, Event.flush]
        ++ consumed.map Event.readLine ++ [Event.closeWrite, Event.sleep, Event.closeRead]) = 1 := by
  refine ⟨?_, ?_, ?_, ?_, ?_⟩ <;>
    simp [countEv, List.filter_append, List.filter_cons,
      filter_map_readLine isOpenWrite (fun _ => rfl),
      filter_map_readLine isOpenRead (fun _ => rfl),
      filter_map_readLine isWriteData (fun _ => rfl),
      filter_map_readLine isCloseWrite (fun _ => rfl),
      filter_map_readLine isCloseRead (fun _ => rfl),
      isOpenWrite, isOpenRead, isWriteData, isCloseWrite, isCloseRead]

end PyAudacity

namespace PyAudacity

/-- C1 (corrected at the concrete scenario): for the peer that sends a
blank line, then `line1`, then a blank line — readline results `"\n"`,
`"line1\n"`, `"\n"` — `do` does not return `"line1\n"`: the initial blank
line does not terminate the read, but it is buffered into the response,
so `do` returns `"\nline1\n"`. -/
theorem c1_blank_first_line_counterexample :
    (doCall wBlankFirstLine "GetInfo").2 = DoResult.returned "\nline1\n" ∧
    (doCall wBlankFirstLine "GetInfo").2 ≠ DoResult.returned "line1\n" := by
  constructor <;> decide

/-- C1 (amended): the read loop terminates only with a nonempty buffered
response; a lone immediately-blank first line does not terminate the read
(the loop then runs out of input without breaking); but the blank first
line is buffered and counts as started output, so for the peer sending a
blank line, `"line1\n"`, and a blank line, `do` returns `"\nline1\n"`. -/
theorem c1_blank_first_line_amended :
    (∀ (lines consumed : List String) (r : String),
        readLinesLoop lines "" = some (consumed, r) → r ≠ "") ∧
    readLinesLoop ["\n"] "" = none ∧
    (doCall wBlankFirstLine "GetInfo").2 = DoResult.returned "\nline1\n" :=
  ⟨fun lines consumed r h => readLinesLoop_response_ne_empty lines "" consumed r h,
   by decide, by decide⟩

/-- Witness for C1 (amended) at the concrete stream `["x\n", "\n"]`. -/
theorem c1_blank_first_line_amended_witness :
    readLinesLoop ["x\n", "\n"] "" = some (["x\n", "\n"], "x\n") ∧ ("x\n" : String) ≠ "" :=
  ⟨by decide, c1_blank_first_line_amended.1 ["x\n", "\n"] ["x\n", "\n"] "x\n" (by decide)⟩

/-- C2 (counterexample to the universal claim): for the command that is
itself the failure marker, the peer's echo contains the marker, so `do`
raises instead of returning the echoed line. -/
theorem c2_echo_counterexample :
    (doCall wMarkerEcho failureMarker).2 ≠ DoResult.returned (failureMarker ++ "\n") ∧
    (doCall wMarkerEcho failureMarker).2 = DoResult.raised ⟨failureMarker ++ "\n"⟩ := by
  constructor <;> decide

/-- C2 (amended): for every command string `c` whose echoed line does not
contain the failure marker, when the peer echoes the line `c` with its
terminator followed by a single blank line, `do` returns exactly that
echoed line — no extra leading or trailing content, and the terminating
blank line is not part of the returned text. -/
theorem c2_echo_roundtrip_amended (win32 : Bool) (uid : Nat) (c : String)
    (hm : containsSubstring (c ++ "\n") failureMarker = false) :
    (doCall ⟨win32, uid, fun _ => true, [c ++ "\n", "\n"]⟩ c).2
      = DoResult.returned (c ++ "\n") := by
  have hloop : readLinesLoop [c ++ "\n", "\n"] "" = some ([c ++ "\n", "\n"], c ++ "\n") := by
    simp [readLinesLoop, String.empty_append, String.length_append,
      show ("\n" : String).length = 1 from rfl]
  have h := doCall_eq_of_loop ⟨win32, uid, fun _ => true, [c ++ "\n", "\n"]⟩ c
    [c ++ "\n", "\n"] (c ++ "\n") rfl rfl hloop
  rw [h]
  simp [hm]

/-- Witness for C2 (amended) at the concrete command `Help`. -/
theorem c2_echo_roundtrip_amended_witness :
    containsSubstring ("Help" ++ "\n") failureMarker = false ∧
    (doCall ⟨false, 0, fun _ => true, ["Help" ++ "\n", "\n"]⟩ "Help").2
      = DoResult.returned ("Help" ++ "\n") :=
  ⟨by decide, c2_echo_roundtrip_amended false 0 "Help" (by decide)⟩

end PyAudacity

namespace PyAudacity

/-- C3: for every run of `do` whose read loop completes with accumulated
response `resp`, `do` raises a `PyAudacityException` carrying exactly
`resp` if and only if `resp` contains the failure marker
`BatchCommand finished: Failed!`; when the marker is absent, `do`
returns `resp` unchanged. -/
theorem c3_failure_marker_iff (w : World) (cmd : String) (consumed : List String) (resp : String)
    (hw : w.pathExists (write_pipe_name w.win32 w.uid) = true)
    (hr : w.pathExists (read_pipe_name w.win32 w.uid) = true)
    (hloop : readLinesLoop w.peerLines "" = some (consumed, resp)) :
    ((doCall w cmd).2 = DoResult.raised ⟨resp⟩ ↔ containsSubstring resp failureMarker = true) ∧
    (containsSubstring resp failureMarker = false → (doCall w cmd).2 = DoResult.returned resp) := by
  have h := doCall_eq_of_loop w cmd consumed resp hw hr hloop
  rw [h]
  by_cases hm : containsSubstring resp failureMarker = true
  · simp [hm]
  · simp [hm]

/-- Witness for C3 at a peer that reports a failed batch command. -/
theorem c3_failure_marker_iff_witness :
    containsSubstring "BatchCommand finished: Failed!\n" failureMarker = true ∧
    (doCall wFailedBatch "Help").2 = DoResult.raised ⟨"BatchCommand finished: Failed!\n"⟩ :=
  ⟨by decide,
   (c3_failure_marker_iff wFailedBatch "Help" ["BatchCommand finished: Failed!\n", "\n"]
      "BatchCommand finished: Failed!\n" rfl rfl (by decide)).1.mpr (by decide)⟩

/-- C4: when the outbound pipe path is missing, `do` raises after nothing
but that one existence check — no pipe is opened, nothing is written,
nothing is read; when the outbound path exists but the inbound path is
missing, `do` raises the same kind of error after only the two existence
checks (and the sleep between them) — again before opening, writing or
reading anything. -/
theorem c4_missing_pipe_fails_fast (w : World) (cmd : String) :
    (w.pathExists (write_pipe_name w.win32 w.uid) = false →
      doCall w cmd = ([Event.checkExists (write_pipe_name w.win32 w.uid) false],
        DoResult.raised ⟨missingPipeMsg (write_pipe_name w.win32 w.uid)⟩) ∧
      countEv isOpenWrite (doCall w cmd).1 = 0 ∧ countEv isOpenRead (doCall w cmd).1 = 0 ∧
      countEv isWriteData (doCall w cmd).1 = 0 ∧ countEv isReadLine (doCall w cmd).1 = 0) ∧
    (w.pathExists (write_pipe_name w.win32 w.uid) = true →
      w.pathExists (read_pipe_name w.win32 w.uid) = false →
      doCall w cmd = ([Event.checkExists (write_pipe_name w.win32 w.uid) true, Event.sleep,
          Event.checkExists (read_pipe_name w.win32 w.uid) false],
        DoResult.raised ⟨missingPipeMsg (read_pipe_name w.win32 w.uid)⟩) ∧
      countEv isOpenWrite (doCall w cmd).1 = 0 ∧ countEv isOpenRead (doCall w cmd).1 = 0 ∧
      countEv isWriteData (doCall w cmd).1 = 0 ∧ countEv isReadLine (doCall w cmd).1 = 0) := by
  constructor
  · intro h
    have ht : doCall w cmd = ([Event.checkExists (write_pipe_name w.win32 w.uid) false],
        DoResult.raised ⟨missingPipeMsg (write_pipe_name w.win32 w.uid)⟩) := by
      simp [doCall, h]
    refine ⟨ht, ?_, ?_, ?_, ?_⟩ <;>
      simp [ht, countEv, List.filter_cons, isOpenWrite, isOpenRead, isWriteData, isReadLine]
  · intro h1 h2
    have ht : doCall w cmd = ([Event.checkExists (write_pipe_name w.win32 w.uid) true, Event.sleep,
        Event.checkExists (read_pipe_name w.win32 w.uid) false],
        DoResult.raised ⟨missingPipeMsg (read_pipe_name w.win32 w.uid)⟩) := by
      simp [doCall, h1, h2]
    refine ⟨ht, ?_, ?_, ?_, ?_⟩ <;>
      simp [ht, countEv, List.filter_cons, isOpenWrite, isOpenRead, isWriteData, isReadLine]

/-- Witness for C4: a world with no pipes, and a world with only the
outbound pipe present. -/
theorem c4_missing_pipe_fails_fast_witness :
    (wNoPipes.pathExists (write_pipe_name wNoPipes.win32 wNoPipes.uid) = false ∧
      doCall wNoPipes "Help" = ([Event.checkExists (write_pipe_name wNoPipes.win32 wNoPipes.uid) false],
        DoResult.raised ⟨missingPipeMsg (write_pipe_name wNoPipes.win32 wNoPipes.uid)⟩)) ∧
    (wWriteOnly.pathExists (write_pipe_name wWriteOnly.win32 wWriteOnly.uid) = true ∧
      wWriteOnly.pathExists (read_pipe_name wWriteOnly.win32 wWriteOnly.uid) = false ∧
      doCall wWriteOnly "Help" = ([Event.checkExists (write_pipe_name wWriteOnly.win32 wWriteOnly.uid) true,
          Event.sleep, Event.checkExists (read_pipe_name wWriteOnly.win32 wWriteOnly.uid) false],
        DoResult.raised ⟨missingPipeMsg (read_pipe_name wWriteOnly.win32 wWriteOnly.uid)⟩)) :=
  ⟨⟨rfl, ((c4_missing_pipe_fails_fast wNoPipes "Help").1 rfl).1⟩,
   ⟨by decide, by decide,
    ((c4_missing_pipe_fails_fast wWriteOnly "Help").2 (by decide) (by decide)).1⟩⟩

/-- C5: in POSIX mode the terminator is a single line feed and the pipe
paths are the fixed `/tmp` prefixes plus the caller's uid; in win32 mode
the terminator is CR+LF+NUL and the pipe names are the two fixed
`\\.\pipe` names; and on any run that passes the existence checks,
exactly one write is performed and it writes exactly the command followed
by the platform terminator. -/
theorem c5_platform_framing (uid : Nat) (w : World) (cmd : String) :
    write_pipe_name false uid = "/tmp/audacity_script_pipe.to." ++ toString uid ∧
    read_pipe_name false uid = "/tmp/audacity_script_pipe.from." ++ toString uid ∧
    eol false = "\n" ∧
    write_pipe_name true uid = "\\\\.\\pipe\\ToSrvPipe" ∧
    read_pipe_name true uid = "\\\\.\\pipe\\FromSrvPipe" ∧
    eol true = "\r\n\x00" ∧
    (w.pathExists (write_pipe_name w.win32 w.uid) = true →
      w.pathExists (read_pipe_name w.win32 w.uid) = true →
      Event.writeData (cmd ++ eol w.win32) ∈ (doCall w cmd).1 ∧
      countEv isWriteData (doCall w cmd).1 = 1) := by
  refine ⟨rfl, rfl, rfl, rfl, rfl, rfl, ?_⟩
  intro hw hr
  cases hloop : readLinesLoop w.peerLines "" with
  | none =>
    constructor
    · simp [doCall, hw, hr, hloop]
    · simp [doCall, hw, hr, hloop, countEv, List.filter_append, List.filter_cons,
        filter_map_readLine isWriteData (fun _ => rfl), isWriteData]
  | some p =>
    have h := doCall_eq_of_loop w cmd p.1 p.2 hw hr (by rw [hloop])
    rw [h]
    constructor
    · simp
    · exact (counts_of_full_trace (write_pipe_name w.win32 w.uid)
        (read_pipe_name w.win32 w.uid) (cmd ++ eol w.win32) p.1).2.2.1

/-- Witness for C5 at a POSIX world whose peer answers `ok`. -/
theorem c5_platform_framing_witness :
    wEchoOk.pathExists (write_pipe_name wEchoOk.win32 wEchoOk.uid) = true ∧
    Event.writeData ("Help" ++ eol wEchoOk.win32) ∈ (doCall wEchoOk "Help").1 ∧
    countEv isWriteData (doCall wEchoOk "Help").1 = 1 :=
  ⟨rfl, (c5_platform_framing 0 wEchoOk "Help").2.2.2.2.2.2 rfl rfl⟩

/-- C6: every run of `do` that reaches the close statements (its read
loop completes) has exactly this trace: the two existence checks, the two
sleeps, one open of each pipe, one write, one flush, the reads of the
loop, then close of the write pipe, a sleep, and close of the read pipe —
so each pipe is opened once and closed once, there is exactly one write
and one read-to-completion, and the closes precede the final
marker check, whose raise or return is the run's outcome. -/
theorem c6_single_exchange (w : World) (cmd : String) (consumed : List String) (resp : String)
    (hw : w.pathExists (write_pipe_name w.win32 w.uid) = true)
    (hr : w.pathExists (read_pipe_name w.win32 w.uid) = true)
    (hloop : readLinesLoop w.peerLines "" = some (consumed, resp)) :
    (doCall w cmd).1 =
      [Event.checkExists (write_pipe_name w.win32 w.uid) true, Event.sleep,
       Event.checkExists (read_pipe_name w.win32 w.uid) true, Event.sleep,
       Event.openWrite (write_pipe_name w.win32 w.uid),
       Event.openRead (read_pipe_name w.win32 w.uid),
       Event.writeData (cmd ++ eol w.win32), Event.flush]
        ++ consumed.map Event.readLine
        ++ [Event.closeWrite, Event.sleep, Event.closeRead] ∧
    countEv isOpenWrite (doCall w cmd).1 = 1 ∧
    countEv isOpenRead (doCall w cmd).1 = 1 ∧
    countEv isWriteData (doCall w cmd).1 = 1 ∧
    countEv isCloseWrite (doCall w cmd).1 = 1 ∧
    countEv isCloseRead (doCall w cmd).1 = 1 ∧
    ((doCall w cmd).2 = DoResult.raised ⟨resp⟩ ∨ (doCall w cmd).2 = DoResult.returned resp) := by
  have h := doCall_eq_of_loop w cmd consumed resp hw hr hloop
  rw [h]
  have hc := counts_of_full_trace (write_pipe_name w.win32 w.uid)
    (read_pipe_name w.win32 w.uid) (cmd ++ eol w.win32) consumed
  refine ⟨rfl, hc.1, hc.2.1, hc.2.2.1, hc.2.2.2.1, hc.2.2.2.2, ?_⟩
  by_cases hm : containsSubstring resp failureMarker = true
  · simp [hm]
  · simp [hm]

/-- Witness for C6 at a POSIX world whose peer answers `ok`. -/
theorem c6_single_exchange_witness :
    readLinesLoop wEchoOk.peerLines "" = some (["ok\n", "\n"], "ok\n") ∧
    countEv isOpenWrite (doCall wEchoOk "Help").1 = 1 ∧
    countEv isCloseRead (doCall wEchoOk "Help").1 = 1 :=
  ⟨by decide,
   (c6_single_exchange wEchoOk "Help" ["ok\n", "\n"] "ok\n" rfl rfl (by decide)).2.1,
   (c6_single_exchange wEchoOk "Help" ["ok\n", "\n"] "ok\n" rfl rfl (by decide)).2.2.2.2.2.1⟩

/-- C7: the read loop has no timeout: it terminates exactly when some
line of the inbound stream is the bare `"\n"` at a point where the
accumulated response is nonempty; a stream that never provides such a
line — including one that reaches end-of-input, modelled by the loop
exhausting `peerLines` — leaves the loop running forever, and `do` then
hangs. -/
theorem c7_read_termination :
    (∀ lines : List String,
      (readLinesLoop lines "").isSome ↔
        ∃ i, ∃ h : i < lines.length,
          lines.get ⟨i, h⟩ = "\n" ∧ concatLines (lines.take i) ≠ "") ∧
    (∀ (w : World) (cmd : String),
      w.pathExists (write_pipe_name w.win32 w.uid) = true →
      w.pathExists (read_pipe_name w.win32 w.uid) = true →
      readLinesLoop w.peerLines "" = none →
      (doCall w cmd).2 = DoResult.hangs) := by
  constructor
  · intro lines
    have h := readLinesLoop_isSome_iff lines ""
    simpa [String.empty_append] using h
  · exact doCall_hangs_of_loop_none

/-- Witness for C7 at a peer that sends content but never a blank line. -/
theorem c7_read_termination_witness :
    readLinesLoop wNoTerminator.peerLines "" = none ∧
    (doCall wNoTerminator "Help").2 = DoResult.hangs :=
  ⟨by decide, c7_read_termination.2 wNoTerminator "Help" rfl rfl (by decide)⟩

/-- C8: two successive calls of `do` are two independent complete
exchanges: the pair of runs is exactly the pair of the two individual
runs, the second run is a function of its own world and command alone
(replacing the first call's world changes nothing about it), and a second
run that completes performs its own single open and close of the pipes. -/
theorem c8_calls_independent (w1 w1' w2 : World) (cmd : String) :
    doTwice w1 w2 cmd = (doCall w1 cmd, doCall w2 cmd) ∧
    (doTwice w1 w2 cmd).2 = (doTwice w1' w2 cmd).2 ∧
    (∀ (consumed : List String) (resp : String),
      w2.pathExists (write_pipe_name w2.win32 w2.uid) = true →
      w2.pathExists (read_pipe_name w2.win32 w2.uid) = true →
      readLinesLoop w2.peerLines "" = some (consumed, resp) →
      countEv isOpenWrite (doTwice w1 w2 cmd).2.1 = 1 ∧
      countEv isCloseRead (doTwice w1 w2 cmd).2.1 = 1) := by
  refine ⟨rfl, rfl, ?_⟩
  intro consumed resp hw hr hloop
  have h := doCall_eq_of_loop w2 cmd consumed resp hw hr hloop
  show countEv isOpenWrite (doCall w2 cmd).1 = 1 ∧ countEv isCloseRead (doCall w2 cmd).1 = 1
  rw [h]
  have hc := counts_of_full_trace (write_pipe_name w2.win32 w2.uid)
    (read_pipe_name w2.win32 w2.uid) (cmd ++ eol w2.win32) consumed
  exact ⟨hc.1, hc.2.2.2.2⟩

/-- Witness for C8: the same command issued twice against the `ok` peer. -/
theorem c8_calls_independent_witness :
    doTwice wEchoOk wEchoOk "Help" = (doCall wEchoOk "Help", doCall wEchoOk "Help") ∧
    countEv isOpenWrite (doTwice wEchoOk wEchoOk "Help").2.1 = 1 :=
  ⟨(c8_calls_independent wEchoOk wEchoOk wEchoOk "Help").1,
   ((c8_calls_independent wEchoOk wEchoOk wEchoOk "Help").2.2 ["ok\n", "\n"] "ok\n"
      rfl rfl (by decide)).1⟩

/-- C9: the missing-endpoint failure and the peer-reported failure are
both raised as the same single exception type `PyAudacityException`,
which carries only its message string — two such exceptions with equal
message text are equal, so there is no machine-readable kind
discriminant and callers can distinguish the kinds only by the text. -/
theorem c9_single_exception_type :
    (doCall wNoPipes "Help").2
      = DoResult.raised ⟨missingPipeMsg (write_pipe_name false 0)⟩ ∧
    (doCall wFailedBatch "Help").2
      = DoResult.raised ⟨"BatchCommand finished: Failed!\n"⟩ ∧
    (∀ e1 e2 : PyAudacityException, e1.message = e2.message → e1 = e2) := by
  refine ⟨by decide, by decide, ?_⟩
  intro e1 e2 h
  cases e1
  cases e2
  simp_all

/-- Witness for C9 at two exceptions with equal messages. -/
theorem c9_single_exception_type_witness :
    (PyAudacityException.mk "m") = PyAudacityException.mk "m" :=
  c9_single_exception_type.2.2 ⟨"m"⟩ ⟨"m"⟩ rfl

/-- C10: with `allow_overwrite = True` and an existing target file, the
very first action of `save` is the `os.unlink` of that file — before
either argument validation (which may itself raise) and before the
`SaveProject2` command is handed to `do` — and it is the only unlink;
with `allow_overwrite = False`, `save` never unlinks anything. -/
theorem c10_save_unlink (fs : String → Bool) (fn : String) (ah cp : PyArg) :
    (fs fn = true →
      ∃ rest, (save fs fn ah cp true).1 = SaveEvent.unlink fn :: rest ∧
        ∀ p, SaveEvent.unlink p ∉ rest) ∧
    (∀ p, SaveEvent.unlink p ∉ (save fs fn ah cp false).1) := by
  constructor
  · intro h
    cases ah with
    | other t => exact ⟨[], by simp [save, h], by simp⟩
    | bool ab =>
      cases cp with
      | other t => exact ⟨[], by simp [save, h], by simp⟩
      | bool cb =>
        refine ⟨[SaveEvent.doCommand ("SaveProject2: Filename=\"" ++ fn ++ "\" AddToHistory=\""
          ++ pyBoolStr ab ++ "\" Compress=\"" ++ pyBoolStr cb ++ "\"")], ?_, ?_⟩
        · simp [save, h]
        · intro p hp
          simp at hp
  · intro p
    cases ah <;> cases cp <;> simp [save]

/-- Witness for C10: saving over an existing `proj.aup3` with an invalid
`add_to_history` argument still unlinks the file first. -/
theorem c10_save_unlink_witness :
    ((fun _ => true : String → Bool) "proj.aup3" = true) ∧
    (∃ rest, (save (fun _ => true) "proj.aup3" (PyArg.other "TYPE") (PyArg.bool false) true).1
        = SaveEvent.unlink "proj.aup3" :: rest ∧ ∀ p, SaveEvent.unlink p ∉ rest) :=
  ⟨rfl, (c10_save_unlink (fun _ => true) "proj.aup3" (PyArg.other "TYPE") (PyArg.bool false)).1 rfl⟩

end PyAudacity
